import Mathlib

/-
Verification of src/server/xai/__init__.py, the bootstrap module of the
txtconv web server.  The module body is embedded as a fixed list of
statements executed over an explicit module state.  Behavior of the
external web framework (application construction, proxy-header fixer,
configuration loading, websocket extension) and of the route module that
is not part of the provided sources is modelled from the specification:
the application object carries a static URL path and static folder, the
proxy fixer wraps the request entry point, configuration loading copies
the key-value pairs of a file one directory above the module into the
configuration mapping, and the websocket extension binds to the
application object.
-/

namespace Xai

/-- Setting values are opaque text; the schema of the settings file is
not defined in the given source. -/
abbrev Value := String

/-- Modelled from the spec: the external settings file is a sequence of
key-value assignments (later assignments to the same key overwrite
earlier ones, as in a Python file executed top to bottom). -/
structure PyFile where
  entries : List (String × Value)
deriving DecidableEq, Repr

/-- A configuration mapping: an association list, most recent binding
first. -/
abbrev Config := List (String × Value)

/-- Record a new binding in a configuration mapping.  The new binding
shadows any earlier binding of the same key. -/
def configSet (c : Config) (k : String) (v : Value) : Config :=
  (k, v) :: c

/-- Look a key up in a configuration mapping. -/
def configLookup : Config → String → Option Value
  | [], _ => none
  | (k0, v0) :: rest, k => if k0 = k then some v0 else configLookup rest k

/-- The value a key has after executing all assignments of a settings
file: the last assignment to the key wins. -/
def lastAssign : List (String × Value) → String → Option Value
  | [], _ => none
  | (k0, v0) :: rest, k =>
      match lastAssign rest k with
      | some w => some w
      | none => if k0 = k then some v0 else none

/-- Modelled from the spec: loading a settings file records each of its
key-value pairs, in order, into the configuration mapping. -/
def loadPyfile (c : Config) (f : PyFile) : Config :=
  f.entries.foldl (fun acc kv => configSet acc kv.1 kv.2) c

/-- The request-handling entry point of the application: either the
original entry point of the application object identified by its id, or
a proxy-header-fixing wrapper around an inner entry point. -/
inductive WsgiApp where
  | original (appId : Nat)
  | proxyFix (inner : WsgiApp)
deriving DecidableEq, Repr

/-- Modelled from the spec: the web application object, with its static
asset configuration, a reference to its mutable configuration mapping in
the heap, an identity tag, and its request-handling entry point. -/
structure FlaskApp where
  import_name : String
  static_url_path : String
  static_folder : String
  appId : Nat
  configRef : Nat
  wsgi_app : WsgiApp
deriving DecidableEq, Repr

/-- Modelled from the spec: the websocket-capable extension, bound to
the application object it was constructed with (identified by its
identity tag). -/
structure SocketsExt where
  appRef : Nat
deriving DecidableEq, Repr

/-- Look up a configuration object in the heap by its reference. -/
def heapGet : List (Nat × Config) → Nat → Option Config
  | [], _ => none
  | (r0, c0) :: rest, r => if r0 = r then some c0 else heapGet rest r

/-- Replace the contents of a configuration object in the heap. -/
def heapSet : List (Nat × Config) → Nat → Config → List (Nat × Config)
  | [], _, _ => []
  | (r0, c0) :: rest, r, c =>
      if r0 = r then (r0, c) :: rest else (r0, c0) :: heapSet rest r c

/-- The state of the module after some prefix of its body has executed:
a heap of mutable configuration objects, the module-level names, the
list of modules imported so far, and the (never constructed) database
client. -/
structure ModuleState where
  nextRef : Nat
  heap : List (Nat × Config)
  app : Option FlaskApp
  SETTINGS : Option Nat
  sockets : Option SocketsExt
  imported : List String
  mongoClient : Option Nat
deriving DecidableEq, Repr

/-- The state before any statement of the module body has executed. -/
def initState : ModuleState :=
  { nextRef := 0, heap := [], app := none, SETTINGS := none,
    sockets := none, imported := [], mongoClient := none }

/-- Modelled from the spec: the environment of the process: which files
exist (by path, with paths resolved relative to the application module,
so the path ../settings.py names a file one directory above the module)
and which modules can be imported.  The route module xai.txtconv.route
is not part of the provided sources, so only its importability is
modelled. -/
structure Env where
  files : String → Option PyFile
  importable : String → Bool

/-- Errors that module initialization can raise. -/
inductive PyError where
  | nameError (n : String)
  | fileNotFound (path : String)
  | importError (m : String)
deriving DecidableEq, Repr

/-- The statements that can occur in a module body, covering each line
of src/server/xai/__init__.py (constructMongoClient is in the statement
language so that its absence from the module body is expressible; the
corresponding source line is commented out). -/
inductive Stmt where
  | constructApp
  | wrapProxyFix
  | loadConfigFromPyfile (path : String)
  | assignSETTINGS
  | constructSockets
  | constructMongoClient
  | importStmt (name : String)
deriving DecidableEq, Repr

/-- Execute one statement.  Application construction allocates a fresh
application object with an empty configuration mapping, static URL path
/static and static folder static; wrapProxyFix replaces the entry point
by a wrapper around the current entry point; loadConfigFromPyfile reads
the named file and records its pairs into the configuration mapping of
the application (raising if the file is missing); assignSETTINGS binds
the module-level name SETTINGS to the configuration object of the
application (the object itself, not a copy); constructSockets builds the
websocket extension bound to the application; importStmt imports a
module, raising if it is not importable. -/
def execStmt (env : Env) (s : ModuleState) : Stmt → Except PyError ModuleState
  | .constructApp =>
      .ok { s with
        nextRef := s.nextRef + 2,
        heap := (s.nextRef + 1, []) :: s.heap,
        app := some { import_name := "xai", static_url_path := "/static",
                      static_folder := "static", appId := s.nextRef,
                      configRef := s.nextRef + 1,
                      wsgi_app := .original s.nextRef } }
  | .wrapProxyFix =>
      match s.app with
      | none => .error (.nameError ("app"))
      | some a =>
          .ok { s with app := some { a with wsgi_app := .proxyFix a.wsgi_app } }
  | .loadConfigFromPyfile path =>
      match s.app with
      | none => .error (.nameError ("app"))
      | some a =>
          match env.files path with
          | none => .error (.fileNotFound path)
          | some f =>
              .ok { s with
                heap := heapSet s.heap a.configRef
                  (loadPyfile ((heapGet s.heap a.configRef).getD []) f) }
  | .assignSETTINGS =>
      match s.app with
      | none => .error (.nameError ("app"))
      | some a => .ok { s with SETTINGS := some a.configRef }
  | .constructSockets =>
      match s.app with
      | none => .error (.nameError ("app"))
      | some a => .ok { s with sockets := some { appRef := a.appId } }
  | .constructMongoClient =>
      .ok { s with mongoClient := some s.nextRef, nextRef := s.nextRef + 1 }
  | .importStmt name =>
      if env.importable name then .ok { s with imported := s.imported ++ [name] }
      else .error (.importError name)

/-- Execute a list of statements, stopping at the first error. -/
def runStmts (env : Env) : ModuleState → List Stmt → Except PyError ModuleState
  | s, [] => .ok s
  | s, stmt :: rest =>
      match execStmt env s stmt with
      | .ok s1 => runStmts env s1 rest
      | .error e => .error e

/-- The body of src/server/xai/__init__.py, one statement per executable
line, in source order (lines 6, 7, 8, 9, 11, 13). -/
def moduleBody : List Stmt :=
  [ .constructApp,
    .wrapProxyFix,
    .loadConfigFromPyfile ("../settings.py"),
    .assignSETTINGS,
    .constructSockets,
    .importStmt ("xai.txtconv.route") ]

/-- The effect of importing the module: run its body from the empty
state. -/
def importXaiModule (env : Env) : Except PyError ModuleState :=
  runStmts env initState moduleBody

/-- The configuration object the module-level name SETTINGS refers to
(empty when SETTINGS is unbound or dangling). -/
def settingsEntries (s : ModuleState) : Config :=
  match s.SETTINGS with
  | none => []
  | some r => (heapGet s.heap r).getD []

/-- Read a key through the module-level name SETTINGS. -/
def settingsLookup (s : ModuleState) (k : String) : Option Value :=
  configLookup (settingsEntries s) k

/-- Read a key of the configuration object at a heap reference. -/
def configLookupAt (s : ModuleState) (r : Nat) (k : String) : Option Value :=
  configLookup ((heapGet s.heap r).getD []) k

/-- Mutate the configuration object at a heap reference: record one new
binding. -/
def configAssign (s : ModuleState) (r : Nat) (k : String) (v : Value) : ModuleState :=
  { s with heap := heapSet s.heap r (configSet ((heapGet s.heap r).getD []) k v) }

/-- The module state after the full body has executed, given the
contents of the settings file. -/
def finalState (f : PyFile) : ModuleState :=
  { nextRef := 2,
    heap := [(1, loadPyfile [] f)],
    app := some { import_name := "xai", static_url_path := "/static",
                  static_folder := "static", appId := 0, configRef := 1,
                  wsgi_app := .proxyFix (.original 0) },
    SETTINGS := some 1,
    sockets := some { appRef := 0 },
    imported := ["xai.txtconv.route"],
    mongoClient := none }

/-- The module state after the first four statements (through the
binding of SETTINGS, covering lines 6 to 9). -/
def stateAfterConfigLoad (f : PyFile) : ModuleState :=
  { finalState f with sockets := none, imported := [] }

/-- The module state after the first five statements (everything except
the route import). -/
def stateBeforeRouteImport (f : PyFile) : ModuleState :=
  { finalState f with imported := [] }

/-- A concrete settings file used to instantiate theorems. -/
def testFile : PyFile :=
  ⟨[("DEBUG", "1"), ("API_KEY", "secret")]⟩

/-- A concrete environment in which the settings file exists one
directory above the module and the route module is importable. -/
def testEnv : Env :=
  { files := fun p => if p = "../settings.py" then some testFile else none,
    importable := fun m => m == "xai.txtconv.route" }

theorem runStmts_take4 (env : Env) (f : PyFile)
    (hf : env.files ("../settings.py") = some f) :
    runStmts env initState (moduleBody.take 4) = .ok (stateAfterConfigLoad f) := by
  simp [moduleBody, runStmts, execStmt, initState, hf, heapGet, heapSet,
        stateAfterConfigLoad, finalState]

theorem runStmts_drop4 (env : Env) (f : PyFile)
    (hr : env.importable ("xai.txtconv.route") = true) :
    runStmts env (stateAfterConfigLoad f) (moduleBody.drop 4) = .ok (finalState f) := by
  simp [moduleBody, runStmts, execStmt, hr, stateAfterConfigLoad, finalState]

theorem runStmts_take5 (env : Env) (f : PyFile)
    (hf : env.files ("../settings.py") = some f) :
    runStmts env initState (moduleBody.take 5) = .ok (stateBeforeRouteImport f) := by
  simp [moduleBody, runStmts, execStmt, initState, hf, heapGet, heapSet,
        stateBeforeRouteImport, finalState]

theorem runStmts_drop5 (env : Env) (f : PyFile)
    (hr : env.importable ("xai.txtconv.route") = true) :
    runStmts env (stateBeforeRouteImport f) (moduleBody.drop 5) = .ok (finalState f) := by
  simp [moduleBody, runStmts, execStmt, hr, stateBeforeRouteImport, finalState]

theorem importXaiModule_eq (env : Env) (f : PyFile)
    (hf : env.files ("../settings.py") = some f)
    (hr : env.importable ("xai.txtconv.route") = true) :
    importXaiModule env = .ok (finalState f) := by
  simp [importXaiModule, moduleBody, runStmts, execStmt, initState, hf, hr,
        heapGet, heapSet, finalState]

theorem foldl_configSet (es : List (String × Value)) (c : Config) :
    es.foldl (fun acc kv => configSet acc kv.1 kv.2) c = es.reverse ++ c := by
  induction es generalizing c with
  | nil => simp
  | cons kv rest ih =>
      simp [configSet, ih, List.reverse_cons, List.append_assoc]

theorem loadPyfile_nil (f : PyFile) : loadPyfile [] f = f.entries.reverse := by
  simp [loadPyfile, foldl_configSet]

theorem configLookup_append (c1 c2 : Config) (k : String) :
    configLookup (c1 ++ c2) k =
      match configLookup c1 k with
      | some v => some v
      | none => configLookup c2 k := by
  induction c1 with
  | nil => rfl
  | cons kv rest ih =>
      obtain ⟨k0, v0⟩ := kv
      by_cases h : k0 = k <;> simp [configLookup, h, ih]

theorem configLookup_reverse (es : List (String × Value)) (k : String) :
    configLookup es.reverse k = lastAssign es k := by
  induction es with
  | nil => rfl
  | cons kv rest ih =>
      obtain ⟨k0, v0⟩ := kv
      rw [List.reverse_cons, configLookup_append, ih]
      cases h : lastAssign rest k <;> simp [lastAssign, h, configLookup]

theorem settingsLookup_finalState (f : PyFile) (k : String) :
    settingsLookup (finalState f) k = lastAssign f.entries k := by
  simp [settingsLookup, settingsEntries, finalState, heapGet, loadPyfile_nil,
        configLookup_reverse]

/-- The state after executing only the first statement of the module
body (the application construction on line 6). -/
def stateAfterApp : ModuleState :=
  { nextRef := 2, heap := [(1, [])],
    app := some { import_name := "xai", static_url_path := "/static",
                  static_folder := "static", appId := 0, configRef := 1,
                  wsgi_app := .original 0 },
    SETTINGS := none, sockets := none, imported := [], mongoClient := none }

theorem runStmts_take1 (env : Env) :
    runStmts env initState (moduleBody.take 1) = .ok stateAfterApp := rfl

/-- C1: during module initialization the configuration is loaded from
the file named settings.py one directory above the module (the path
../settings.py resolved relative to the module), and the key-value
pairs of that file become the entries of the process-wide settings
mapping: every key read through SETTINGS yields exactly the value the
file last assigns to that key. -/
theorem C1_config_loaded_from_settings_file (env : Env) (f : PyFile)
    (hf : env.files ("../settings.py") = some f)
    (hr : env.importable ("xai.txtconv.route") = true) :
    ∃ s, importXaiModule env = .ok s ∧ s.SETTINGS.isSome ∧
      ∀ k, settingsLookup s k = lastAssign f.entries k :=
  ⟨finalState f, importXaiModule_eq env f hf hr, rfl,
   fun k => settingsLookup_finalState f k⟩

/-- Witness for C1 at a concrete environment and settings file. -/
theorem C1_config_loaded_from_settings_file_witness :
    testEnv.files ("../settings.py") = some testFile ∧
    testEnv.importable ("xai.txtconv.route") = true ∧
    (∃ s, importXaiModule testEnv = .ok s ∧ s.SETTINGS.isSome ∧
      ∀ k, settingsLookup s k = lastAssign testFile.entries k) :=
  ⟨by decide, by decide,
   C1_config_loaded_from_settings_file testEnv testFile (by decide) (by decide)⟩

/-- C2: after module initialization the process-wide application object
exists and is configured with static URL path /static and static
directory static. -/
theorem C2_app_static_configuration (env : Env) (f : PyFile)
    (hf : env.files ("../settings.py") = some f)
    (hr : env.importable ("xai.txtconv.route") = true) :
    ∃ s a, importXaiModule env = .ok s ∧ s.app = some a ∧
      a.static_url_path = "/static" ∧ a.static_folder = "static" :=
  ⟨finalState f, _, importXaiModule_eq env f hf hr, rfl, rfl, rfl⟩

/-- Witness for C2 at a concrete environment and settings file. -/
theorem C2_app_static_configuration_witness :
    testEnv.files ("../settings.py") = some testFile ∧
    testEnv.importable ("xai.txtconv.route") = true ∧
    (∃ s a, importXaiModule testEnv = .ok s ∧ s.app = some a ∧
      a.static_url_path = "/static" ∧ a.static_folder = "static") :=
  ⟨by decide, by decide,
   C2_app_static_configuration testEnv testFile (by decide) (by decide)⟩

/-- C3: after module initialization the request-handling entry point of
the application is wrapped by the proxy-header-fixing middleware, and
the inner entry point of the wrapper is exactly the original entry
point the application object was constructed with (the entry point held
by the state reached after the first statement alone). -/
theorem C3_entry_point_wrapped_by_proxy_fixer (env : Env) (f : PyFile)
    (hf : env.files ("../settings.py") = some f)
    (hr : env.importable ("xai.txtconv.route") = true) :
    ∃ a1 s a, runStmts env initState (moduleBody.take 1) = .ok stateAfterApp ∧
      stateAfterApp.app = some a1 ∧
      a1.wsgi_app = WsgiApp.original a1.appId ∧
      importXaiModule env = .ok s ∧ s.app = some a ∧
      a.wsgi_app = WsgiApp.proxyFix a1.wsgi_app :=
  ⟨_, finalState f, _, rfl, rfl, rfl,
   importXaiModule_eq env f hf hr, rfl, rfl⟩

/-- Witness for C3 at a concrete environment and settings file. -/
theorem C3_entry_point_wrapped_by_proxy_fixer_witness :
    testEnv.files ("../settings.py") = some testFile ∧
    testEnv.importable ("xai.txtconv.route") = true ∧
    (∃ a1 s a, runStmts testEnv initState (moduleBody.take 1) = .ok stateAfterApp ∧
      stateAfterApp.app = some a1 ∧
      a1.wsgi_app = WsgiApp.original a1.appId ∧
      importXaiModule testEnv = .ok s ∧ s.app = some a ∧
      a.wsgi_app = WsgiApp.proxyFix a1.wsgi_app) :=
  ⟨by decide, by decide,
   C3_entry_point_wrapped_by_proxy_fixer testEnv testFile (by decide) (by decide)⟩

/-- C4: the websocket extension constructed during module
initialization is bound to the very application object that carries the
static configuration and the settings: the application the extension
holds is identified with the application object of the module. -/
theorem C4_sockets_bound_to_same_app (env : Env) (f : PyFile)
    (hf : env.files ("../settings.py") = some f)
    (hr : env.importable ("xai.txtconv.route") = true) :
    ∃ s a sk, importXaiModule env = .ok s ∧ s.app = some a ∧
      s.sockets = some sk ∧ sk.appRef = a.appId :=
  ⟨finalState f, _, _, importXaiModule_eq env f hf hr, rfl, rfl, rfl⟩

/-- Witness for C4 at a concrete environment and settings file. -/
theorem C4_sockets_bound_to_same_app_witness :
    testEnv.files ("../settings.py") = some testFile ∧
    testEnv.importable ("xai.txtconv.route") = true ∧
    (∃ s a sk, importXaiModule testEnv = .ok s ∧ s.app = some a ∧
      s.sockets = some sk ∧ sk.appRef = a.appId) :=
  ⟨by decide, by decide,
   C4_sockets_bound_to_same_app testEnv testFile (by decide) (by decide)⟩

/-- C5: the module body is exactly the fixed sequence of application
construction, proxy wrapping, configuration-file loading, SETTINGS
binding, websocket extension construction, and, last, the route import
(the configuration-loading step of the claim spans the two statements
of lines 8 and 9); executing everything before the final route-import
statement yields a state in which the application object, the settings
mapping and the websocket extension already exist while the route
module is not yet imported, and the route import is the single
remaining statement, whose execution completes module initialization. -/
theorem C5_fixed_setup_order (env : Env) (f : PyFile)
    (hf : env.files ("../settings.py") = some f)
    (hr : env.importable ("xai.txtconv.route") = true) :
    moduleBody = [Stmt.constructApp, Stmt.wrapProxyFix,
      Stmt.loadConfigFromPyfile ("../settings.py"), Stmt.assignSETTINGS,
      Stmt.constructSockets, Stmt.importStmt ("xai.txtconv.route")] ∧
    ∃ s5, runStmts env initState (moduleBody.take 5) = .ok s5 ∧
      s5.app.isSome ∧ s5.SETTINGS.isSome ∧ s5.sockets.isSome ∧
      s5.imported = [] ∧
      moduleBody.drop 5 = [Stmt.importStmt ("xai.txtconv.route")] ∧
      runStmts env s5 (moduleBody.drop 5) = importXaiModule env := by
  refine ⟨rfl, stateBeforeRouteImport f, runStmts_take5 env f hf,
    rfl, rfl, rfl, rfl, rfl, ?_⟩
  rw [runStmts_drop5 env f hr, importXaiModule_eq env f hf hr]

/-- Witness for C5 at a concrete environment and settings file. -/
theorem C5_fixed_setup_order_witness :
    testEnv.files ("../settings.py") = some testFile ∧
    testEnv.importable ("xai.txtconv.route") = true ∧
    (moduleBody = [Stmt.constructApp, Stmt.wrapProxyFix,
      Stmt.loadConfigFromPyfile ("../settings.py"), Stmt.assignSETTINGS,
      Stmt.constructSockets, Stmt.importStmt ("xai.txtconv.route")] ∧
    ∃ s5, runStmts testEnv initState (moduleBody.take 5) = .ok s5 ∧
      s5.app.isSome ∧ s5.SETTINGS.isSome ∧ s5.sockets.isSome ∧
      s5.imported = [] ∧
      moduleBody.drop 5 = [Stmt.importStmt ("xai.txtconv.route")] ∧
      runStmts testEnv s5 (moduleBody.drop 5) = importXaiModule testEnv) :=
  ⟨by decide, by decide,
   C5_fixed_setup_order testEnv testFile (by decide) (by decide)⟩

/-- C6: importing the module does not raise when the settings file one
directory above the module exists and the route module is importable:
running the body from the empty state produces a final state, not an
error. -/
theorem C6_import_does_not_raise (env : Env) (f : PyFile)
    (hf : env.files ("../settings.py") = some f)
    (hr : env.importable ("xai.txtconv.route") = true) :
    ∃ s, importXaiModule env = .ok s :=
  ⟨finalState f, importXaiModule_eq env f hf hr⟩

/-- Witness for C6 at a concrete environment and settings file. -/
theorem C6_import_does_not_raise_witness :
    testEnv.files ("../settings.py") = some testFile ∧
    testEnv.importable ("xai.txtconv.route") = true ∧
    (∃ s, importXaiModule testEnv = .ok s) :=
  ⟨by decide, by decide,
   C6_import_does_not_raise testEnv testFile (by decide) (by decide)⟩

/-- C7: the settings mapping is initialized exactly once during module
initialization and never mutated afterwards: before the
configuration-loading step the name SETTINGS is unbound, after the
statements through line 9 it is bound, and the remaining statements of
the body change neither the binding nor the heap, so the mapping
contents reaching the end of initialization are the ones the loading
step produced. -/
theorem C7_settings_initialized_once_then_read_only (env : Env) (f : PyFile)
    (hf : env.files ("../settings.py") = some f)
    (hr : env.importable ("xai.txtconv.route") = true) :
    ∃ s2 s4 s, runStmts env initState (moduleBody.take 2) = .ok s2 ∧
      s2.SETTINGS = none ∧
      runStmts env initState (moduleBody.take 4) = .ok s4 ∧
      s4.SETTINGS.isSome ∧
      runStmts env s4 (moduleBody.drop 4) = .ok s ∧
      importXaiModule env = .ok s ∧
      s.SETTINGS = s4.SETTINGS ∧ s.heap = s4.heap :=
  ⟨_, stateAfterConfigLoad f, finalState f, rfl, rfl,
   runStmts_take4 env f hf, rfl, runStmts_drop4 env f hr,
   importXaiModule_eq env f hf hr, rfl, rfl⟩

/-- Witness for C7 at a concrete environment and settings file. -/
theorem C7_settings_initialized_once_then_read_only_witness :
    testEnv.files ("../settings.py") = some testFile ∧
    testEnv.importable ("xai.txtconv.route") = true ∧
    (∃ s2 s4 s, runStmts testEnv initState (moduleBody.take 2) = .ok s2 ∧
      s2.SETTINGS = none ∧
      runStmts testEnv initState (moduleBody.take 4) = .ok s4 ∧
      s4.SETTINGS.isSome ∧
      runStmts testEnv s4 (moduleBody.drop 4) = .ok s ∧
      importXaiModule testEnv = .ok s ∧
      s.SETTINGS = s4.SETTINGS ∧ s.heap = s4.heap) :=
  ⟨by decide, by decide,
   C7_settings_initialized_once_then_read_only testEnv testFile (by decide) (by decide)⟩

/-- C8: after module initialization the entries of the settings mapping
match the contents of the external settings file (every key reads as
the value of its last assignment in the file), and in particular the
mapping is non-empty whenever the file contains at least one
assignment. -/
theorem C8_settings_match_file_contents (env : Env) (f : PyFile)
    (hf : env.files ("../settings.py") = some f)
    (hr : env.importable ("xai.txtconv.route") = true) :
    ∃ s, importXaiModule env = .ok s ∧
      (∀ k, settingsLookup s k = lastAssign f.entries k) ∧
      (f.entries ≠ [] → settingsEntries s ≠ []) := by
  refine ⟨finalState f, importXaiModule_eq env f hf hr,
    fun k => settingsLookup_finalState f k, fun h => ?_⟩
  simpa [settingsEntries, finalState, heapGet, loadPyfile_nil] using h

/-- Witness for C8 at a concrete environment and settings file. -/
theorem C8_settings_match_file_contents_witness :
    testEnv.files ("../settings.py") = some testFile ∧
    testEnv.importable ("xai.txtconv.route") = true ∧
    (∃ s, importXaiModule testEnv = .ok s ∧
      (∀ k, settingsLookup s k = lastAssign testFile.entries k) ∧
      (testFile.entries ≠ [] → settingsEntries s ≠ [])) :=
  ⟨by decide, by decide,
   C8_settings_match_file_contents testEnv testFile (by decide) (by decide)⟩

/-- C9: module initialization constructs no database client: the
statement that would construct one never occurs in the module body (the
corresponding source line is commented out), and the state produced by
importing the module holds no database client. -/
theorem C9_no_database_client (env : Env) (f : PyFile)
    (hf : env.files ("../settings.py") = some f)
    (hr : env.importable ("xai.txtconv.route") = true) :
    Stmt.constructMongoClient ∉ moduleBody ∧
    ∃ s, importXaiModule env = .ok s ∧ s.mongoClient = none :=
  ⟨by decide, finalState f, importXaiModule_eq env f hf hr, rfl⟩

/-- Witness for C9 at a concrete environment and settings file. -/
theorem C9_no_database_client_witness :
    testEnv.files ("../settings.py") = some testFile ∧
    testEnv.importable ("xai.txtconv.route") = true ∧
    (Stmt.constructMongoClient ∉ moduleBody ∧
     ∃ s, importXaiModule testEnv = .ok s ∧ s.mongoClient = none) :=
  ⟨by decide, by decide,
   C9_no_database_client testEnv testFile (by decide) (by decide)⟩

/-- C10: the module-level name SETTINGS and the configuration of the
application object denote the same heap object, an alias rather than a
copy: SETTINGS is bound to exactly the reference the application object
stores, every key reads the same through both, and a binding added
through either reference is immediately visible through the other. -/
theorem C10_SETTINGS_aliases_app_config (env : Env) (f : PyFile)
    (hf : env.files ("../settings.py") = some f)
    (hr : env.importable ("xai.txtconv.route") = true) :
    ∃ s a, importXaiModule env = .ok s ∧ s.app = some a ∧
      s.SETTINGS = some a.configRef ∧
      (∀ k, settingsLookup s k = configLookupAt s a.configRef k) ∧
      (∀ r, s.SETTINGS = some r → ∀ k v,
        configLookupAt (configAssign s r k v) a.configRef k = some v ∧
        settingsLookup (configAssign s a.configRef k v) k = some v) := by
  refine ⟨finalState f, _, importXaiModule_eq env f hf hr, rfl, rfl,
    fun k => rfl, ?_⟩
  intro r hs k v
  have h1 : (1 : Nat) = r := by simpa [finalState] using hs
  subst h1
  constructor <;>
    simp [configLookupAt, configAssign, settingsLookup, settingsEntries,
      finalState, heapGet, heapSet, configSet, configLookup]

/-- Witness for C10 at a concrete environment and settings file. -/
theorem C10_SETTINGS_aliases_app_config_witness :
    testEnv.files ("../settings.py") = some testFile ∧
    testEnv.importable ("xai.txtconv.route") = true ∧
    (∃ s a, importXaiModule testEnv = .ok s ∧ s.app = some a ∧
      s.SETTINGS = some a.configRef ∧
      (∀ k, settingsLookup s k = configLookupAt s a.configRef k) ∧
      (∀ r, s.SETTINGS = some r → ∀ k v,
        configLookupAt (configAssign s r k v) a.configRef k = some v ∧
        settingsLookup (configAssign s a.configRef k v) k = some v)) :=
  ⟨by decide, by decide,
   C10_SETTINGS_aliases_app_config testEnv testFile (by decide) (by decide)⟩

end Xai
